import Mathlib

/-
Shallow embedding of src/main.py: a line-oriented contact manager
(validated fields Name/Phone/Birthday, Record, AddressBook with a
pagination cursor, and the AssistantBot command dispatcher).

Python exceptions are modelled by the `PyErr` type; the three classes the
`input_error` decorator catches (TypeError, KeyError, ValueError) are three
constructors, and `otherError` stands for any other exception class, which
the decorator would let escape.  Fallible code returns `Except PyErr`.
Mutation of the bot's address book is modelled by explicit state passing:
each handler returns its result together with the updated book.
-/

inductive PyErr where
  | typeError (msg : String)
  | keyError (msg : String)
  | valueError (msg : String)
  | otherError (msg : String)
  deriving DecidableEq, Repr

/-- Rendering of a caught exception by the `input_error` decorator
(`str(err)` of a `KeyError` quotes its argument). -/
def PyErr.render : PyErr → String
  | .typeError m => "Invalid input, some info is missing: " ++ m
  | .keyError m => "Sorry, no such command: \x27" ++ m ++ "\x27"
  | .valueError m => "ValueError: " ++ m
  | .otherError m => m

/-- The `input_error` decorator: catches TypeError, KeyError and ValueError,
turning them into message strings; any other exception propagates. -/
def input_error (r : Except PyErr (Option String)) : Except PyErr (Option String) :=
  match r with
  | .ok o => .ok o
  | .error (.typeError m) => .ok (some (PyErr.render (.typeError m)))
  | .error (.keyError m) => .ok (some (PyErr.render (.keyError m)))
  | .error (.valueError m) => .ok (some (PyErr.render (.valueError m)))
  | .error (.otherError m) => .error (.otherError m)

/-- Number of digit characters at the start of the string
(`re.match` is anchored at the start only). -/
def leadingDigits : List Char → Nat
  | [] => 0
  | c :: cs => if c.isDigit then leadingDigits cs + 1 else 0

/-- First alternative of the regex `(\+?\d{12}|\d{10})` under `re.match`:
an optional leading plus followed by (at least) 12 digits. -/
def plusTwelveAlt (cs : List Char) : Bool :=
  match cs with
  | '+' :: rest => decide (12 ≤ leadingDigits rest)
  | _ => decide (12 ≤ leadingDigits cs)

/-- `Phone.is_valid`: `match(r"(\+?\d{12}|\d{10})", value)` — a prefix match,
nothing anchors the end of the string. -/
def Phone.is_valid (value : String) : Bool :=
  plusTwelveAlt value.data || decide (10 ≤ leadingDigits value.data)

def phoneErrMsg : String := "Invalid phone format. Try +123456789012 or 1234567890."

/-- Construction `Phone(value)`: `verify_value` raises ValueError when
`Phone.is_valid` fails; the object carries the raw string as its value. -/
def Phone.mk_checked (value : String) : Except PyErr String :=
  if Phone.is_valid value then .ok value
  else .error (.valueError phoneErrMsg)

/-- `Name.verify_value`: `match(r"\b[A-Za-z]+", value)` anchored at the
start — it holds exactly when the first character is an ASCII letter. -/
def nameMatches (value : String) : Bool :=
  match value.data with
  | c :: _ => c.isAlpha
  | [] => false

/- ----------------------- dates ----------------------- -/

structure PyDate where
  year : Nat
  month : Nat
  day : Nat
  deriving DecidableEq, Repr

/-- Leap year rule of the proleptic Gregorian calendar (Python `datetime`). -/
def isLeap (y : Nat) : Bool := y % 4 == 0 && (y % 100 != 0 || y % 400 == 0)

def daysInMonth (y m : Nat) : Nat :=
  if m = 2 then (if isLeap y then 29 else 28)
  else if m = 4 ∨ m = 6 ∨ m = 9 ∨ m = 11 then 30
  else 31

/-- Days in the months strictly before month `m` of year `y`. -/
def daysBeforeMonth (y : Nat) : Nat → Nat
  | 0 => 0
  | 1 => 0
  | m + 2 => daysBeforeMonth y (m + 1) + daysInMonth y (m + 1)

/-- Days in the years strictly before year `y` (as in `date.toordinal`). -/
def daysBeforeYear (y : Nat) : Nat :=
  365 * (y - 1) + (y - 1) / 4 - (y - 1) / 100 + (y - 1) / 400

def daysInYear (y : Nat) : Nat := if isLeap y then 366 else 365

/-- Proleptic Gregorian ordinal of a date, as `date.toordinal`. -/
def toOrdinal (d : PyDate) : Nat :=
  daysBeforeYear d.year + daysBeforeMonth d.year d.month + d.day

/-- `(a - b).days` for Python dates: difference of ordinals. -/
def diffDays (a b : PyDate) : Int := (toOrdinal a : Int) - (toOrdinal b : Int)

/-- The validity check of the `datetime.date` constructor. -/
def PyDate.valid (d : PyDate) : Prop :=
  1 ≤ d.year ∧ d.year ≤ 9999 ∧ 1 ≤ d.month ∧ d.month ≤ 12 ∧
    1 ≤ d.day ∧ d.day ≤ daysInMonth d.year d.month

instance (d : PyDate) : Decidable d.valid := by
  unfold PyDate.valid; infer_instance

/-- `datetime.date(year, month, day)` with CPython's field checks. -/
def mkDate (y m d : Nat) : Except PyErr PyDate :=
  if y < 1 ∨ 9999 < y then .error (.valueError "year is out of range")
  else if m < 1 ∨ 12 < m then .error (.valueError "month must be in 1..12")
  else if d < 1 ∨ daysInMonth y m < d then
    .error (.valueError "day is out of range for month")
  else .ok ⟨y, m, d⟩

/-- `date.replace(year=y)`: rebuilds the date, re-validating the fields. -/
def PyDate.replaceYear (dt : PyDate) (y : Nat) : Except PyErr PyDate :=
  mkDate y dt.month dt.day

/-- Python comparison of `date` objects: lexicographic on (year, month, day). -/
def dateLt (a b : PyDate) : Prop :=
  a.year < b.year ∨ (a.year = b.year ∧
    (a.month < b.month ∨ (a.month = b.month ∧ a.day < b.day)))

instance (a b : PyDate) : Decidable (dateLt a b) := by
  unfold dateLt; infer_instance

def pad2 (n : Nat) : String := if n < 10 then "0" ++ toString n else toString n

def pad4 (n : Nat) : String :=
  if n < 10 then "000" ++ toString n
  else if n < 100 then "00" ++ toString n
  else if n < 1000 then "0" ++ toString n
  else toString n

/-- `str(date)`: ISO format `YYYY-MM-DD`. -/
def renderDate (d : PyDate) : String :=
  pad4 d.year ++ "-" ++ pad2 d.month ++ "-" ++ pad2 d.day

/- ----------------------- strptime("%d.%m.%Y") ----------------------- -/

def dig (c : Char) : Nat := c.toNat - '0'.toNat

/-- The `%d` directive's pattern `3[01]|[12]\d|0[1-9]|[1-9]` as a two-digit
match. -/
def twoDigitDay (a b : Char) : Bool :=
  (a == '3' && (b == '0' || b == '1')) ||
  ((a == '1' || a == '2') && b.isDigit) ||
  (a == '0' && b.isDigit && b != '0')

def oneDigitNonzero (a : Char) : Bool := a.isDigit && a != '0'

/-- Matching `%d\.` at the front of the input: the regex engine takes a
two-digit day when the literal dot follows, else backtracks to one digit. -/
def dayThenDot (cs : List Char) : Option (Nat × List Char) :=
  match cs with
  | a :: b :: '.' :: rest =>
      if twoDigitDay a b then some (10 * dig a + dig b, rest)
      else if oneDigitNonzero a && b == '.' then some (dig a, '.' :: rest)
      else none
  | a :: b :: rest =>
      if oneDigitNonzero a && b == '.' then some (dig a, rest) else none
  | _ => none

/-- The `%m` directive's pattern `1[0-2]|0[1-9]|[1-9]` as a two-digit match. -/
def twoDigitMonth (a b : Char) : Bool :=
  (a == '1' && (b == '0' || b == '1' || b == '2')) ||
  (a == '0' && b.isDigit && b != '0')

/-- Matching `%m\.` at the front of the input. -/
def monthThenDot (cs : List Char) : Option (Nat × List Char) :=
  match cs with
  | a :: b :: '.' :: rest =>
      if twoDigitMonth a b then some (10 * dig a + dig b, rest)
      else if oneDigitNonzero a && b == '.' then some (dig a, '.' :: rest)
      else none
  | a :: b :: rest =>
      if oneDigitNonzero a && b == '.' then some (dig a, rest) else none
  | _ => none

/-- The `%Y` directive: exactly four digits. -/
def yearFour (cs : List Char) : Option (Nat × List Char) :=
  match cs with
  | a :: b :: c :: d :: rest =>
      if a.isDigit && b.isDigit && c.isDigit && d.isDigit then
        some (1000 * dig a + 100 * dig b + 10 * dig c + dig d, rest)
      else none
  | _ => none

/-- `datetime.strptime(s, "%d.%m.%Y").date()`: parse day, dot, month, dot,
four-digit year, no leftover input, then build the (validated) date. -/
def strptime_dmY (s : String) : Except PyErr PyDate :=
  match dayThenDot s.data with
  | none => .error (.valueError "time data does not match format")
  | some (d, cs1) =>
    match monthThenDot cs1 with
    | none => .error (.valueError "time data does not match format")
    | some (m, cs2) =>
      match yearFour cs2 with
      | none => .error (.valueError "time data does not match format")
      | some (y, cs3) =>
        if cs3 = [] then mkDate y m d
        else .error (.valueError "unconverted data remains")

/-- The birthday-sniffing regex of the two-argument `add` path:
`match(r"\d{2}\.\d{2}\.\d{4}", value)` — again only a prefix match. -/
def birthdayShape (value : String) : Bool :=
  match value.data with
  | a :: b :: c :: d :: e :: f :: g :: h :: i :: j :: _ =>
      a.isDigit && b.isDigit && c == '.' && d.isDigit && e.isDigit &&
        f == '.' && g.isDigit && h.isDigit && i.isDigit && j.isDigit
  | _ => false

/- ----------------------- Record ----------------------- -/

/-- A `Record`: one name, an ordered phone list (phones compare by their
string value, so they are carried as strings), an optional birthday. -/
structure Record where
  name : String
  phones : List String
  birthday : Option PyDate
  deriving DecidableEq, Repr

/-- `Record(name)`: empty name raises; then `Name(name)` validates. -/
def Record.mk_checked (name : String) : Except PyErr Record :=
  if name = "" then .error (.valueError "The record must have a name.")
  else if nameMatches name then .ok ⟨name, [], none⟩
  else .error (.valueError "Name can contain only latin letters.")

/-- `Record.add_phone`: validates via `Phone(phone)`, then appends. -/
def Record.add_phone (r : Record) (phone : String) : Except PyErr Record :=
  match Phone.mk_checked phone with
  | .error e => .error e
  | .ok p => .ok { r with phones := r.phones ++ [p] }

/-- `Record.find_phone`: first stored phone equal (by value) to the query. -/
def Record.find_phone (r : Record) (phone : String) : Option String :=
  r.phones.find? (fun p => p == phone)

/-- `Record.delete_phone`: removes the first value-equal phone, or raises. -/
def Record.delete_phone (r : Record) (phone : String) : Except PyErr Record :=
  match r.find_phone phone with
  | some p => .ok { r with phones := r.phones.erase p }
  | none => .error (.valueError "The given phone is not in a list.")

/-- `Record.add_birthday` via `Birthday(birthday)`: a future date raises,
otherwise the new birthday overwrites any previous one. -/
def Record.add_birthday (today : PyDate) (r : Record) (b : PyDate) :
    Except PyErr Record :=
  if dateLt today b then .error (.valueError "Birthday can\x27t be in future.")
  else .ok { r with birthday := some b }

def daysMsg (n : Int) : String :=
  "there are " ++ toString n ++ " days to this person\x27s birthday"

/-- `Record.count_days_to_birthday` for a record whose stored birthday is
`bday`, evaluated when `datetime.now().date()` is `today`. -/
def Record.count_days_to_birthday (today bday : PyDate) : Except PyErr String :=
  match bday.replaceYear today.year with
  | .error e => .error e
  | .ok thisYears =>
    if dateLt today thisYears then
      .ok (daysMsg (diffDays thisYears today))
    else if today = thisYears then
      .ok "Today is this person\x27s birthday!"
    else
      match thisYears.replaceYear (thisYears.year + 1) with
      | .error e => .error e
      | .ok nextYears => .ok (daysMsg (diffDays nextYears today))

/-- `Record.__str__`. -/
def Record.render (today : PyDate) (r : Record) : Except PyErr String :=
  let phones := String.intercalate ", " r.phones
  match r.birthday with
  | none => .ok ("Name: " ++ r.name ++ ", phones: " ++ phones)
  | some b =>
    match Record.count_days_to_birthday today b with
    | .error e => .error e
    | .ok msg =>
      .ok ("Name: " ++ r.name ++ ", phones: " ++ phones ++ ", birthday: " ++
        renderDate b ++ ", " ++ msg)

/- ----------------------- AddressBook ----------------------- -/

/-- The address book: the insertion-ordered dict (`Name` keys hash and
compare by their string value, so keys are carried as strings) plus the
suspended pagination generator, represented by its `page_start`. -/
structure AddressBook where
  data : List (String × Record)
  pageCursor : Option Nat
  deriving DecidableEq, Repr

def AddressBook.hasKey (b : AddressBook) (name : String) : Bool :=
  b.data.any (fun kv => kv.1 == name)

def AddressBook.lookup (b : AddressBook) (name : String) : Option Record :=
  (b.data.find? (fun kv => kv.1 == name)).map Prod.snd

/-- In-place mutation of the record stored under `name`. -/
def AddressBook.update (b : AddressBook) (name : String) (r : Record) :
    AddressBook :=
  { b with data := b.data.map (fun kv => if kv.1 == name then (kv.1, r) else kv) }

def dupMsg : String :=
  "This name is already in your phonebook. If you want to change the phone number, type \x27change\x27.If you want to add a phone number, type it after the name."

/-- `AddressBook.add_record`: insert under a fresh key, else raise. -/
def AddressBook.add_record (b : AddressBook) (r : Record) :
    Except PyErr AddressBook :=
  if b.hasKey r.name then .error (.valueError dupMsg)
  else .ok { b with data := b.data ++ [(r.name, r)] }

/-- `AddressBook.delete_record`: `del` for a present key, else KeyError. -/
def AddressBook.delete_record (b : AddressBook) (name : String) :
    Except PyErr AddressBook :=
  if b.hasKey name then
    .ok { b with data := b.data.eraseP (fun kv => kv.1 == name) }
  else .error (.keyError "This person is not in your address book.")

/-- One resumption of the `iterator` generator (PAGE_SIZE = 2) combined with
`show_record`'s reset of the exhausted paginator: recompute the live values,
yield the next slice and advance `page_start`, or signal exhaustion and
clear the cursor. -/
def AddressBook.page_step (b : AddressBook) :
    Option (List Record) × AddressBook :=
  let values := b.data.map Prod.snd
  let page_start := b.pageCursor.getD 0
  if values.length ≤ page_start then (none, { b with pageCursor := none })
  else
    let page_end :=
      if values.length < page_start + 2 then values.length else page_start + 2
    (some ((values.drop page_start).take (page_end - page_start)),
      { b with pageCursor := some page_end })

/-- The list comprehension `[str(r) for r in page_content]`. -/
def renderStrs (today : PyDate) : List Record → Except PyErr (List String)
  | [] => .ok []
  | r :: rs =>
    match r.render today with
    | .error e => .error e
    | .ok s =>
      match renderStrs today rs with
      | .error e => .error e
      | .ok ss => .ok (s :: ss)

/-- The loop of `show_record`'s "all" branch: `result += str(value) + "\n"`. -/
def renderAll (today : PyDate) : List Record → Except PyErr String
  | [] => .ok ""
  | r :: rs =>
    match r.render today with
    | .error e => .error e
    | .ok s =>
      match renderAll today rs with
      | .error e => .error e
      | .ok rest => .ok (s ++ "\n" ++ rest)

def endOfBookMsg : String :=
  "You reached the end of the address book. Call this command again."

/-- `AddressBook.show_record`. -/
def AddressBook.show_record (today : PyDate) (b : AddressBook) (name : String) :
    Except PyErr String × AddressBook :=
  if name = "all" then
    if b.data.isEmpty then (.ok "You do not have any contacts yet.", b)
    else
      match renderAll today (b.data.map Prod.snd) with
      | .ok s => (.ok s, b)
      | .error e => (.error e, b)
  else if name = "page" then
    match b.page_step with
    | (none, b1) => (.ok endOfBookMsg, b1)
    | (some page, b1) =>
      if page.isEmpty then (.ok endOfBookMsg, { b1 with pageCursor := none })
      else
        match renderStrs today page with
        | .ok ss => (.ok (String.intercalate "\n" ss), b1)
        | .error e => (.error e, b1)
  else
    match b.lookup name with
    | some r =>
      (match r.render today with
       | .ok s => (.ok s, b)
       | .error e => (.error e, b))
    | none =>
      (.ok "You don\x27t have a contact with this name in your address book.", b)

/- ----------------------- dispatcher ----------------------- -/

/-- Result of one (undecorated) handler call: the Python return value
(`None` or a string) or a raised exception, plus the updated book. -/
abbrev HResult := Except PyErr (Option String) × AddressBook

def AssistantBot.hello (b : AddressBook) (args : List String) : HResult :=
  match args with
  | [] => (.ok (some "How can I help you?"), b)
  | _ => (.error (.typeError "hello takes 0 positional arguments"), b)

def helpText : String :=
  "To add a new person type: \x27add name phone birthday\x27.\n" ++
  "To add a phone to the existing record type: \x27add name phone\x27.\n" ++
  "To add a birthday to the existing record type: \x27add name birthday\x27.\n" ++
  "To delete a phone from a person\x27s record type: \x27delete name phone\x27.\n" ++
  "To delete a person\x27s record from the address book type: \x27delete name\x27.\n" ++
  "To change a person\x27s phone type: \x27change name old_phone new_phone\x27.\n" ++
  "To see a particular phone type: \x27show name\x27.\n" ++
  "To see part of the address book type: \x27show num_of_entries\x27.\n" ++
  "To see the whole address book type: \x27show all\x27.\n" ++
  "Possible phone formats: +123456789011 or 123456789011 or 1234567890.\n" ++
  "Possible birthday format: dd.mm.yyyy.\n"

def AssistantBot.help (b : AddressBook) (args : List String) : HResult :=
  match args with
  | [] => (.ok (some helpText), b)
  | _ => (.error (.typeError "help takes 0 positional arguments"), b)

def formatMsg : String :=
  "The format of your entry isn\x27t right. Type in \x27help\x27 to see possible formats."

/-- The second-token classification shared by both two-argument `add` paths:
phone sniffing first, then the birthday regex, else ValueError.  `book` is
the book as it stands when the classification runs (in the new-name path the
bare record has already been inserted into it). -/
def addSecondToken (today : PyDate) (book : AddressBook) (name : String)
    (r : Record) (tok : String) : HResult :=
  if Phone.is_valid tok then
    match r.add_phone tok with
    | .error e => (.error e, book)
    | .ok r1 => (.ok none, book.update name r1)
  else if birthdayShape tok then
    match strptime_dmY tok with
    | .error e => (.error e, book)
    | .ok bd =>
      match r.add_birthday today bd with
      | .error e => (.error e, book)
      | .ok r1 => (.ok none, book.update name r1)
  else (.error (.valueError formatMsg), book)

/-- The `add` handler (undecorated).  Note the fall-through: an argument
list of any length other than 1, 2 or 3 silently returns `None`. -/
def AssistantBot.add (today : PyDate) (b : AddressBook) (args : List String) :
    HResult :=
  match args with
  | [name, phone, birthday] =>
    (match Record.mk_checked name with
     | .error e => (.error e, b)
     | .ok r =>
       match r.add_phone phone with
       | .error e => (.error e, b)
       | .ok r1 =>
         match strptime_dmY birthday with
         | .error e => (.error e, b)
         | .ok bd =>
           match r1.add_birthday today bd with
           | .error e => (.error e, b)
           | .ok r2 =>
             match b.add_record r2 with
             | .error e => (.error e, b)
             | .ok b1 => (.ok none, b1))
  | [a0, a1] =>
    (match b.lookup a0 with
     | some r => addSecondToken today b a0 r a1
     | none =>
       match Record.mk_checked a0 with
       | .error e => (.error e, b)
       | .ok r =>
         match b.add_record r with
         | .error e => (.error e, b)
         | .ok b1 => addSecondToken today b1 a0 r a1)
  | [a0] =>
    (match Record.mk_checked a0 with
     | .error e => (.error e, b)
     | .ok r =>
       match b.add_record r with
       | .error e => (.error e, b)
       | .ok b1 => (.ok none, b1))
  | _ => (.ok none, b)

/-- The `change` handler (undecorated): look the record up, delete the old
phone, then add the new one; the deletion is not rolled back. -/
def AssistantBot.change (b : AddressBook) (args : List String) : HResult :=
  match args with
  | [name, old_phone, new_phone] =>
    (match b.lookup name with
     | none => (.error (.keyError name), b)
     | some r =>
       match r.delete_phone old_phone with
       | .error e => (.error e, b)
       | .ok r1 =>
         let b1 := b.update name r1
         match r1.add_phone new_phone with
         | .error e => (.error e, b1)
         | .ok r2 => (.ok none, b1.update name r2))
  | _ => (.error (.typeError "change missing required positional arguments"), b)

/-- The `show` handler (undecorated). -/
def AssistantBot.show (today : PyDate) (b : AddressBook) (args : List String) :
    HResult :=
  match args with
  | [name] =>
    (match b.show_record today name with
     | (.ok s, b1) => (.ok (some s), b1)
     | (.error e, b1) => (.error e, b1))
  | _ => (.error (.typeError "show takes 2 positional arguments"), b)

/-- The `delete` handler (it carries no `input_error` decorator of its own;
an empty-string phone argument is falsy, so it deletes the whole record). -/
def AssistantBot.delete (b : AddressBook) (args : List String) : HResult :=
  match args with
  | [name] =>
    (match b.delete_record name with
     | .ok b1 => (.ok none, b1)
     | .error e => (.error e, b))
  | [name, phone] =>
    if phone == "" then
      match b.delete_record name with
      | .ok b1 => (.ok none, b1)
      | .error e => (.error e, b)
    else
      match b.lookup name with
      | none => (.error (.keyError name), b)
      | some r =>
        match r.delete_phone phone with
        | .error e => (.error e, b)
        | .ok r1 => (.ok none, b.update name r1)
  | _ => (.error (.typeError "delete missing required positional arguments"), b)

/-- The dispatch table lookup and handler call, before the decorator:
`self.commands[command]` (KeyError when absent) then `handler(*args)`. -/
def AssistantBot.handle_raw (today : PyDate) (b : AddressBook)
    (command : String) (args : List String) : HResult :=
  if command = "hello" then AssistantBot.hello b args
  else if command = "add" then AssistantBot.add today b args
  else if command = "delete" then AssistantBot.delete b args
  else if command = "change" then AssistantBot.change b args
  else if command = "show" then AssistantBot.show today b args
  else if command = "help" then AssistantBot.help b args
  else (.error (.keyError command), b)

/-- `AssistantBot.handle`: the dispatch wrapped in `input_error`. -/
def AssistantBot.handle (today : PyDate) (b : AddressBook) (command : String)
    (args : List String) : Except PyErr (Option String) × AddressBook :=
  let res := AssistantBot.handle_raw today b command args
  (input_error res.1, res.2)

/- ----------------------- helper lemmas ----------------------- -/

lemma leadingDigits_ge_iff (l : List Char) : ∀ (k : Nat),
    k ≤ leadingDigits l ↔
      ∃ t r, l = t ++ r ∧ t.length = k ∧ t.all Char.isDigit = true := by
  induction l with
  | nil =>
    intro k
    simp only [leadingDigits]
    constructor
    · intro h
      have hk : k = 0 := by omega
      subst hk
      exact ⟨[], [], rfl, rfl, rfl⟩
    · rintro ⟨t, r, happ, hlen, hall⟩
      rcases t with _ | ⟨a, t⟩
      · simp at hlen; omega
      · exact absurd happ (by simp)
  | cons c cs ih =>
    intro k
    by_cases hc : c.isDigit
    · have e1 : leadingDigits (c :: cs) = leadingDigits cs + 1 := by
        simp [leadingDigits, hc]
      rw [e1]
      rcases k with _ | k
      · constructor
        · intro _; exact ⟨[], c :: cs, rfl, rfl, rfl⟩
        · intro _; omega
      · constructor
        · intro h
          obtain ⟨t, r, happ, hlen, hall⟩ := (ih k).mp (by omega)
          exact ⟨c :: t, r, by simp [happ], by simp [hlen], by simp [hc, hall]⟩
        · rintro ⟨t, r, happ, hlen, hall⟩
          rcases t with _ | ⟨a, t⟩
          · simp at hlen
          · simp only [List.cons_append, List.cons.injEq] at happ
            obtain ⟨h1, h2⟩ := happ
            simp only [List.all_cons, Bool.and_eq_true] at hall
            simp only [List.length_cons] at hlen
            have : k ≤ leadingDigits cs :=
              (ih k).mpr ⟨t, r, h2, by omega, hall.2⟩
            omega
    · have e1 : leadingDigits (c :: cs) = 0 := by simp [leadingDigits, hc]
      rw [e1]
      constructor
      · intro h
        have hk : k = 0 := by omega
        subst hk
        exact ⟨[], c :: cs, rfl, rfl, rfl⟩
      · rintro ⟨t, r, happ, hlen, hall⟩
        rcases t with _ | ⟨a, t⟩
        · simp at hlen; omega
        · simp only [List.cons_append, List.cons.injEq] at happ
          simp only [List.all_cons, Bool.and_eq_true] at hall
          exact absurd (happ.1 ▸ hall.1) hc

lemma plusTwelveAlt_cons_ne {c : Char} {cs : List Char} (hc : c ≠ '+') :
    plusTwelveAlt (c :: cs) = decide (12 ≤ leadingDigits (c :: cs)) := by
  unfold plusTwelveAlt
  split
  · next heq =>
    injection heq with h1 h2
    exact absurd h1 hc
  · rfl

/-- Characterization of the regex acceptance: the match is anchored only at
the start of the string. -/
lemma phone_is_valid_iff (s : String) :
    Phone.is_valid s = true ↔
      ((∃ t r, s.data = '+' :: (t ++ r) ∧ t.length = 12 ∧
          t.all Char.isDigit = true) ∨
       (∃ t r, s.data = t ++ r ∧ t.length = 10 ∧ t.all Char.isDigit = true)) := by
  unfold Phone.is_valid
  rcases hd : s.data with _ | ⟨c, cs⟩
  · constructor
    · intro h
      simp [plusTwelveAlt, leadingDigits] at h
    · rintro (⟨t, r, happ, hlen, hall⟩ | ⟨t, r, happ, hlen, hall⟩)
      · exact absurd happ (by simp)
      · rcases t with _ | ⟨a, t⟩
        · simp at hlen
        · exact absurd happ (by simp)
  · by_cases hc : c = '+'
    · subst hc
      have e1 : plusTwelveAlt ('+' :: cs) = decide (12 ≤ leadingDigits cs) := rfl
      have e2 : leadingDigits ('+' :: cs) = 0 := by
        simp [leadingDigits]
      rw [e1, e2]
      constructor
      · intro h
        simp only [Bool.or_eq_true, decide_eq_true_eq] at h
        rcases h with h | h
        · obtain ⟨t, r, happ, hlen, hall⟩ := (leadingDigits_ge_iff cs 12).mp h
          exact Or.inl ⟨t, r, by simp [happ], hlen, hall⟩
        · omega
      · rintro (⟨t, r, happ, hlen, hall⟩ | ⟨t, r, happ, hlen, hall⟩)
        · simp only [List.cons.injEq] at happ
          have : 12 ≤ leadingDigits cs :=
            (leadingDigits_ge_iff cs 12).mpr ⟨t, r, happ.2, hlen, hall⟩
          simp only [Bool.or_eq_true, decide_eq_true_eq]
          exact Or.inl this
        · rcases t with _ | ⟨a, t⟩
          · simp at hlen
          · simp only [List.cons_append, List.cons.injEq] at happ
            simp only [List.all_cons, Bool.and_eq_true] at hall
            have : ('+' : Char).isDigit = true := happ.1 ▸ hall.1
            simp [Char.isDigit] at this
    · rw [plusTwelveAlt_cons_ne hc]
      constructor
      · intro h
        simp only [Bool.or_eq_true, decide_eq_true_eq] at h
        have h10 : 10 ≤ leadingDigits (c :: cs) := by omega
        obtain ⟨t, r, happ, hlen, hall⟩ :=
          (leadingDigits_ge_iff (c :: cs) 10).mp h10
        exact Or.inr ⟨t, r, happ, hlen, hall⟩
      · rintro (⟨t, r, happ, hlen, hall⟩ | ⟨t, r, happ, hlen, hall⟩)
        · simp only [List.cons.injEq] at happ
          exact absurd happ.1 hc
        · have : 10 ≤ leadingDigits (c :: cs) :=
            (leadingDigits_ge_iff (c :: cs) 10).mpr ⟨t, r, happ, hlen, hall⟩
          simp only [Bool.or_eq_true, decide_eq_true_eq]
          exact Or.inr this

/- ----------------------- claim C1 ----------------------- -/

/-- Claim C1, counterexample: "12345678901" consists of exactly 11 digits, so
by the claim Phone construction should fail with a ValidationError; in the
code `re.match` only anchors the start, the 10-digit alternative matches a
prefix, and construction succeeds. -/
theorem claim_C1_counterexample :
    ("12345678901".data.length = 11 ∧ "12345678901".data.all Char.isDigit = true) ∧
      Phone.mk_checked "12345678901" = .ok "12345678901" := by
  exact ⟨⟨rfl, rfl⟩, rfl⟩

/-- Claim C1 (amended): Phone construction either succeeds (returning the raw
value) or fails with the ValidationError message, and it succeeds exactly when
the string STARTS WITH an accepted shape: a leading plus followed by 12
digits, or 10 digits — any digit count or trailing junk beyond such a prefix
is accepted, since the regex match is anchored only at the start. -/
theorem claim_C1_thm (s : String) :
    (Phone.mk_checked s = .ok s ∨
      Phone.mk_checked s = .error (.valueError phoneErrMsg)) ∧
    (Phone.mk_checked s = .ok s ↔
      ((∃ t r, s.data = '+' :: (t ++ r) ∧ t.length = 12 ∧
          t.all Char.isDigit = true) ∨
       (∃ t r, s.data = t ++ r ∧ t.length = 10 ∧
          t.all Char.isDigit = true))) := by
  constructor
  · unfold Phone.mk_checked
    by_cases h : Phone.is_valid s = true
    · exact Or.inl (by rw [if_pos h])
    · exact Or.inr (by rw [if_neg h])
  · rw [← phone_is_valid_iff]
    unfold Phone.mk_checked
    by_cases h : Phone.is_valid s = true
    · rw [if_pos h]; simp [h]
    · rw [if_neg h]; simp [h]

/- ----------------------- claim C2 ----------------------- -/

/-- Claim C2 (amended): the `add` handler takes `*args`, so no arity ever
raises at the call; an argument list whose length is not 1, 2 or 3 falls
through every branch and silently returns `None` with the book unchanged —
it does NOT fail with a missing-argument error. -/
theorem claim_C2_thm (today : PyDate) (b : AddressBook) (args : List String)
    (h : ¬(args.length = 1 ∨ args.length = 2 ∨ args.length = 3)) :
    AssistantBot.add today b args = (.ok none, b) := by
  match args with
  | [] => rfl
  | [a0] => exact absurd (Or.inl rfl) h
  | [a0, a1] => exact absurd (Or.inr (Or.inl rfl)) h
  | [a0, a1, a2] => exact absurd (Or.inr (Or.inr rfl)) h
  | a0 :: a1 :: a2 :: a3 :: rest => rfl

def sampleDate : PyDate := ⟨2024, 1, 15⟩

def emptyBook : AddressBook := ⟨[], none⟩

/-- Claim C2, counterexample: at arity 0 the `add` handler returns `None`
and changes nothing — no error of any kind is produced. -/
theorem claim_C2_counterexample :
    AssistantBot.add sampleDate emptyBook [] = (.ok none, emptyBook) ∧
      ∀ e, (AssistantBot.add sampleDate emptyBook []).1 ≠ Except.error e := by
  refine ⟨rfl, fun e h => ?_⟩
  rw [show (AssistantBot.add sampleDate emptyBook []).1 = Except.ok none from rfl] at h
  exact Except.noConfusion h

/-- Witness for claim C2's theorem at arity 4. -/
theorem claim_C2_witness :
    ¬((["a", "b", "c", "d"] : List String).length = 1 ∨
        (["a", "b", "c", "d"] : List String).length = 2 ∨
        (["a", "b", "c", "d"] : List String).length = 3) ∧
    AssistantBot.add sampleDate emptyBook ["a", "b", "c", "d"] =
      (.ok none, emptyBook) :=
  ⟨by decide, claim_C2_thm sampleDate emptyBook ["a", "b", "c", "d"] (by decide)⟩

/- ----------------------- claim C10 ----------------------- -/

/-- Claim C10: for a stored birthday of February 29, evaluating
`count_days_to_birthday` in a non-leap current year raises a ValueError from
`replace(year=today.year)` instead of returning any countdown or "today"
message. -/
theorem claim_C10_thm (today bday : PyDate) (hv : today.valid)
    (hl : isLeap today.year = false) (hm : bday.month = 2) (hd : bday.day = 29) :
    Record.count_days_to_birthday today bday =
      .error (.valueError "day is out of range for month") ∧
    ∀ r : Record, r.birthday = some bday →
      r.render today = .error (.valueError "day is out of range for month") := by
  have hv' : 1 ≤ today.year ∧ today.year ≤ 9999 ∧ 1 ≤ today.month ∧
      today.month ≤ 12 ∧ 1 ≤ today.day ∧
      today.day ≤ daysInMonth today.year today.month := hv
  obtain ⟨h1, h2, _⟩ := hv'
  have hcount : Record.count_days_to_birthday today bday =
      .error (.valueError "day is out of range for month") := by
    unfold Record.count_days_to_birthday PyDate.replaceYear mkDate
    rw [hm, hd]
    have hdm : daysInMonth today.year 2 = 28 := by simp [daysInMonth, hl]
    rw [if_neg (by omega), if_neg (by norm_num), if_pos (by omega)]
  refine ⟨hcount, fun r hr => ?_⟩
  unfold Record.render
  rw [hr]
  dsimp only
  rw [hcount]

/-- Witness for claim C10 on 1 March 2023 with a birthday of 29 Feb 2020. -/
theorem claim_C10_witness :
    PyDate.valid ⟨2023, 3, 1⟩ ∧ isLeap 2023 = false ∧
    Record.count_days_to_birthday ⟨2023, 3, 1⟩ ⟨2020, 2, 29⟩ =
      .error (.valueError "day is out of range for month") ∧
    Record.render ⟨2023, 3, 1⟩ ⟨"Leap", [], some ⟨2020, 2, 29⟩⟩ =
      .error (.valueError "day is out of range for month") := by
  have h := claim_C10_thm ⟨2023, 3, 1⟩ ⟨2020, 2, 29⟩ (by decide) (by decide)
    rfl rfl
  exact ⟨by decide, by decide, h.1, h.2 ⟨"Leap", [], some ⟨2020, 2, 29⟩⟩ rfl⟩

/- ----------------------- claim C6 ----------------------- -/

/-- Claim C6: adding a record whose name is already a key of the book raises
the duplicate-name ValueError (the spec's DuplicateKeyError); through the
one-argument `add` handler the book comes back entirely unchanged, so the
stored record and the key set are untouched. -/
theorem claim_C6_thm (today : PyDate) (b : AddressBook) (r : Record)
    (h : b.hasKey r.name = true) :
    b.add_record r = .error (.valueError dupMsg) ∧
    (r.name ≠ "" → nameMatches r.name = true →
      AssistantBot.add today b [r.name] = (.error (.valueError dupMsg), b)) := by
  constructor
  · unfold AddressBook.add_record
    rw [if_pos h]
  · intro h1 h2
    have hmk : Record.mk_checked r.name = .ok ⟨r.name, [], none⟩ := by
      unfold Record.mk_checked; rw [if_neg h1, if_pos h2]
    have hadd : b.add_record (⟨r.name, [], none⟩ : Record) =
        .error (.valueError dupMsg) := by
      unfold AddressBook.add_record; rw [if_pos h]
    show (match Record.mk_checked r.name with
          | .error e => (Except.error e, b)
          | .ok r' =>
            match b.add_record r' with
            | .error e => (Except.error e, b)
            | .ok b1 => (Except.ok none, b1)) = _
    rw [hmk]
    dsimp only
    rw [hadd]

def recBob : Record := ⟨"Bob", ["1234567890"], none⟩

def bookBob : AddressBook := ⟨[("Bob", recBob)], none⟩

/-- Witness for claim C6: re-adding "Bob" to a book that has a "Bob" key. -/
theorem claim_C6_witness :
    bookBob.hasKey "Bob" = true ∧
    bookBob.add_record ⟨"Bob", [], none⟩ = .error (.valueError dupMsg) ∧
    AssistantBot.add sampleDate bookBob ["Bob"] =
      (.error (.valueError dupMsg), bookBob) := by
  have h := claim_C6_thm sampleDate bookBob ⟨"Bob", [], none⟩ (by decide)
  exact ⟨by decide, h.1, h.2 (by decide) (by decide)⟩

/- ----------------------- claim C7 ----------------------- -/

lemma find?_beq_self {phone : String} {l : List String} (h : phone ∈ l) :
    l.find? (fun p => p == phone) = some phone := by
  induction l with
  | nil => cases h
  | cons c cs ih =>
    rcases List.mem_cons.mp h with h1 | h2
    · subst h1; simp [List.find?_cons]
    · by_cases hc : c = phone
      · subst hc; simp [List.find?_cons]
      · rw [List.find?_cons]
        have hb : (c == phone) = false := by simp [hc]
        rw [hb]
        exact ih h2

lemma delete_phone_not_mem (r : Record) (phone : String)
    (h : phone ∉ r.phones) :
    r.delete_phone phone =
      .error (.valueError "The given phone is not in a list.") := by
  unfold Record.delete_phone Record.find_phone
  rw [List.find?_eq_none.mpr (fun x hx hpx => h (by
    rw [show x = phone from by simpa using hpx] at hx; exact hx))]

lemma delete_phone_mem (r : Record) (phone : String) (h : phone ∈ r.phones) :
    r.delete_phone phone = .ok { r with phones := r.phones.erase phone } := by
  unfold Record.delete_phone Record.find_phone
  rw [find?_beq_self h]

/-- Claim C7: deleting a phone that no stored phone equals by value fails
with the not-in-list ValueError and (the operation being pure on failure)
the phone list is unchanged; when a match exists, exactly the first
value-equal occurrence is removed. -/
theorem claim_C7_thm (r : Record) (phone : String) :
    (phone ∉ r.phones →
      r.delete_phone phone =
        .error (.valueError "The given phone is not in a list.")) ∧
    (phone ∈ r.phones →
      ∃ l1 l2, phone ∉ l1 ∧ r.phones = l1 ++ phone :: l2 ∧
        r.delete_phone phone = .ok { r with phones := l1 ++ l2 }) := by
  constructor
  · exact delete_phone_not_mem r phone
  · intro h
    obtain ⟨l1, l2, hnm, heq, herase⟩ := List.exists_erase_eq h
    refine ⟨l1, l2, hnm, heq, ?_⟩
    rw [delete_phone_mem r phone h, herase]

/-- Witness for claim C7: both branches at concrete records. -/
theorem claim_C7_witness :
    "1234567890" ∈ recBob.phones ∧
    ∃ l1 l2, "1234567890" ∉ l1 ∧ recBob.phones = l1 ++ "1234567890" :: l2 ∧
      recBob.delete_phone "1234567890" = .ok { recBob with phones := l1 ++ l2 } :=
  ⟨by decide, (claim_C7_thm recBob "1234567890").2 (by decide)⟩

/- ----------------------- claim C5 ----------------------- -/

lemma find?_key_map_update (l : List (String × Record)) (name : String)
    (r' : Record) (h : (l.find? (fun kv => kv.1 == name)).isSome = true) :
    (l.map (fun kv => if kv.1 == name then (kv.1, r') else kv)).find?
      (fun kv => kv.1 == name) = some (name, r') := by
  induction l with
  | nil => simp at h
  | cons kv t ih =>
    by_cases hk : kv.1 = name
    · have hb : (kv.1 == name) = true := by simpa using hk
      simp [List.find?_cons, hb, hk]
    · have hb : (kv.1 == name) = false := by simpa using hk
      simp only [List.find?_cons, hb] at h
      rw [List.map_cons, List.find?_cons,
        if_neg (show ¬((kv.1 == name) = true) by simp [hb])]
      rw [hb]
      exact ih h

lemma lookup_update {b : AddressBook} {name : String} {r : Record}
    (r' : Record) (h : b.lookup name = some r) :
    (b.update name r').lookup name = some r' := by
  unfold AddressBook.lookup at h ⊢
  unfold AddressBook.update
  have hs : (b.data.find? (fun kv => kv.1 == name)).isSome = true := by
    rcases hf : b.data.find? (fun kv => kv.1 == name) with _ | kv
    · rw [hf] at h; simp at h
    · rw [hf]; rfl
  rw [find?_key_map_update b.data name r' hs]
  rfl

lemma add_phone_invalid (r : Record) (phone : String)
    (h : Phone.is_valid phone = false) :
    r.add_phone phone = .error (.valueError phoneErrMsg) := by
  unfold Record.add_phone Phone.mk_checked
  simp [h]

/-- Claim C5: `change(name, oldPhone, newPhone)` deletes oldPhone from the
named record and then adds newPhone; either failure propagates, and when
the deletion succeeded but newPhone fails validation, the book keeps the
record with oldPhone already removed — no rollback. -/
theorem claim_C5_thm (b : AddressBook) (name old_phone new_phone : String)
    (r : Record) (h : b.lookup name = some r) :
    (old_phone ∉ r.phones →
      AssistantBot.change b [name, old_phone, new_phone] =
        (.error (.valueError "The given phone is not in a list."), b)) ∧
    (old_phone ∈ r.phones → Phone.is_valid new_phone = false →
      AssistantBot.change b [name, old_phone, new_phone] =
        (.error (.valueError phoneErrMsg),
          b.update name { r with phones := r.phones.erase old_phone }) ∧
      (b.update name
          { r with phones := r.phones.erase old_phone }).lookup name =
        some { r with phones := r.phones.erase old_phone }) := by
  constructor
  · intro hmem
    show (match b.lookup name with
          | none => (Except.error (PyErr.keyError name), b)
          | some r =>
            match r.delete_phone old_phone with
            | .error e => (Except.error e, b)
            | .ok r1 =>
              let b1 := b.update name r1
              match r1.add_phone new_phone with
              | .error e => (Except.error e, b1)
              | .ok r2 => (Except.ok none, b1.update name r2)) = _
    rw [h]
    dsimp only
    rw [delete_phone_not_mem r old_phone hmem]
  · intro hmem hval
    constructor
    · show (match b.lookup name with
            | none => (Except.error (PyErr.keyError name), b)
            | some r =>
              match r.delete_phone old_phone with
              | .error e => (Except.error e, b)
              | .ok r1 =>
                let b1 := b.update name r1
                match r1.add_phone new_phone with
                | .error e => (Except.error e, b1)
                | .ok r2 => (Except.ok none, b1.update name r2)) = _
      rw [h]
      dsimp only
      rw [delete_phone_mem r old_phone hmem]
      dsimp only
      rw [add_phone_invalid _ new_phone hval]
    · exact lookup_update _ h

/-- Witness for claim C5: changing Bob's only phone to an invalid one leaves
the book with the old phone deleted and no new phone added. -/
theorem claim_C5_witness :
    "1234567890" ∈ recBob.phones ∧ Phone.is_valid "abc" = false ∧
    AssistantBot.change bookBob ["Bob", "1234567890", "abc"] =
      (.error (.valueError phoneErrMsg),
        bookBob.update "Bob" { recBob with phones := recBob.phones.erase "1234567890" }) ∧
    (bookBob.update "Bob"
        { recBob with phones := recBob.phones.erase "1234567890" }).lookup "Bob" =
      some { recBob with phones := recBob.phones.erase "1234567890" } := by
  have h := (claim_C5_thm bookBob "Bob" "1234567890" "abc" recBob (by decide)).2
    (by decide) (by decide)
  exact ⟨by decide, by decide, h.1, h.2⟩

/- ----------------------- claim C9 ----------------------- -/

lemma hasKey_eq_false {b : AddressBook} {name : String}
    (h : b.lookup name = none) : b.hasKey name = false := by
  unfold AddressBook.lookup at h
  unfold AddressBook.hasKey
  have hf : b.data.find? (fun kv => kv.1 == name) = none := by
    rcases hf : b.data.find? (fun kv => kv.1 == name) with _ | kv
    · exact hf
    · rw [hf] at h; simp at h
  simp only [List.any_eq_false]
  exact fun x hx => List.find?_eq_none.mp hf x hx

/-- Claim C9: in the two-argument `add` path with a fresh name, the bare
record is inserted into the book BEFORE the second token is classified, so
when the token matches neither the phone shape nor the birthday shape the
call raises the format ValueError while the book keeps the new bare record
(no rollback of the insertion). -/
theorem claim_C9_thm (today : PyDate) (b : AddressBook) (name tok : String)
    (h0 : b.lookup name = none) (h1 : name ≠ "") (h2 : nameMatches name = true)
    (h3 : Phone.is_valid tok = false) (h4 : birthdayShape tok = false) :
    AssistantBot.add today b [name, tok] =
      (.error (.valueError formatMsg),
        { b with data := b.data ++ [(name, ⟨name, [], none⟩)] }) := by
  have hmk : Record.mk_checked name = .ok ⟨name, [], none⟩ := by
    unfold Record.mk_checked; rw [if_neg h1, if_pos h2]
  have hadd : b.add_record (⟨name, [], none⟩ : Record) =
      .ok { b with data := b.data ++ [(name, ⟨name, [], none⟩)] } := by
    unfold AddressBook.add_record
    rw [hasKey_eq_false h0]
    simp
  show (match b.lookup name with
        | some r => addSecondToken today b name r tok
        | none =>
          match Record.mk_checked name with
          | .error e => (Except.error e, b)
          | .ok r =>
            match b.add_record r with
            | .error e => (Except.error e, b)
            | .ok b1 => addSecondToken today b1 name r tok) = _
  rw [h0]
  dsimp only
  rw [hmk]
  dsimp only
  rw [hadd]
  dsimp only
  unfold addSecondToken
  simp [h3, h4]

/-- Witness for claim C9: `add Alice zzz` on the empty book fails yet leaves
a bare record for Alice behind. -/
theorem claim_C9_witness :
    emptyBook.lookup "Alice" = none ∧ Phone.is_valid "zzz" = false ∧
    birthdayShape "zzz" = false ∧
    AssistantBot.add sampleDate emptyBook ["Alice", "zzz"] =
      (.error (.valueError formatMsg),
        { emptyBook with
            data := emptyBook.data ++ [("Alice", ⟨"Alice", [], none⟩)] }) :=
  ⟨rfl, rfl, rfl,
    claim_C9_thm sampleDate emptyBook "Alice" "zzz" rfl (by decide) rfl rfl rfl⟩

/- ----------------------- claim C3 ----------------------- -/

/-- Iterated calls of the page operation: `pageIter b n` is the result of the
(n+1)-th consecutive `show page` slice computation starting from book `b`. -/
def pageIter (b : AddressBook) : Nat → Option (List Record) × AddressBook
  | 0 => b.page_step
  | n + 1 => ((pageIter b n).2).page_step

/-- Claim C3: over a book of exactly 5 records with a fresh pagination
cursor, successive page operations yield the insertion-order slices of sizes
2, 2 and 1, then the end-of-book signal (with the cursor reset), and the
following call starts a new pass with the first page of size 2 again. -/
theorem claim_C3_thm (b : AddressBook) (h5 : b.data.length = 5)
    (h0 : b.pageCursor = none) :
    (pageIter b 0).1 = some ((b.data.map Prod.snd).take 2) ∧
    ((b.data.map Prod.snd).take 2).length = 2 ∧
    (pageIter b 1).1 = some (((b.data.map Prod.snd).drop 2).take 2) ∧
    (((b.data.map Prod.snd).drop 2).take 2).length = 2 ∧
    (pageIter b 2).1 = some ((b.data.map Prod.snd).drop 4) ∧
    ((b.data.map Prod.snd).drop 4).length = 1 ∧
    (pageIter b 3).1 = none ∧
    ((pageIter b 3).2).pageCursor = none ∧
    (pageIter b 4).1 = some ((b.data.map Prod.snd).take 2) := by
  have hv : (b.data.map Prod.snd).length = 5 := by simp [h5]
  have e0 : b.page_step =
      (some ((b.data.map Prod.snd).take 2), { b with pageCursor := some 2 }) := by
    unfold AddressBook.page_step
    rw [h0]
    simp only [Option.getD_some, Option.getD_none, hv]
    rw [if_neg (by omega), if_neg (by omega)]
    simp
  have e1 : ({ b with pageCursor := some 2 } : AddressBook).page_step =
      (some (((b.data.map Prod.snd).drop 2).take 2),
        { b with pageCursor := some 4 }) := by
    unfold AddressBook.page_step
    simp only [Option.getD_some, hv]
    rw [if_neg (by omega), if_neg (by omega)]
  have e2 : ({ b with pageCursor := some 4 } : AddressBook).page_step =
      (some ((b.data.map Prod.snd).drop 4), { b with pageCursor := some 5 }) := by
    unfold AddressBook.page_step
    simp only [Option.getD_some, hv]
    rw [if_neg (by omega), if_pos (by omega)]
    have ht : ((b.data.map Prod.snd).drop 4).take (5 - 4) =
        (b.data.map Prod.snd).drop 4 := by
      apply List.take_of_length_le
      simp [hv]
    rw [ht]
  have e3 : ({ b with pageCursor := some 5 } : AddressBook).page_step =
      (none, { b with pageCursor := none }) := by
    unfold AddressBook.page_step
    simp only [Option.getD_some, hv]
    rw [if_pos (by omega)]
  have e4 : ({ b with pageCursor := none } : AddressBook).page_step =
      (some ((b.data.map Prod.snd).take 2), { b with pageCursor := some 2 }) := by
    unfold AddressBook.page_step
    simp only [Option.getD_none, hv]
    rw [if_neg (by omega), if_neg (by omega)]
    simp
  have p0 : pageIter b 0 =
      (some ((b.data.map Prod.snd).take 2), { b with pageCursor := some 2 }) := e0
  have p1 : pageIter b 1 =
      (some (((b.data.map Prod.snd).drop 2).take 2),
        { b with pageCursor := some 4 }) := by
    show ((pageIter b 0).2).page_step = _
    rw [p0]
    exact e1
  have p2 : pageIter b 2 =
      (some ((b.data.map Prod.snd).drop 4), { b with pageCursor := some 5 }) := by
    show ((pageIter b 1).2).page_step = _
    rw [p1]
    exact e2
  have p3 : pageIter b 3 = (none, { b with pageCursor := none }) := by
    show ((pageIter b 2).2).page_step = _
    rw [p2]
    exact e3
  have p4 : pageIter b 4 =
      (some ((b.data.map Prod.snd).take 2), { b with pageCursor := some 2 }) := by
    show ((pageIter b 3).2).page_step = _
    rw [p3]
    exact e4
  refine ⟨by rw [p0], by simp [hv], by rw [p1], ?_, by rw [p2], ?_,
    by rw [p3], by rw [p3], by rw [p4]⟩
  · simp [hv]
  · simp [hv]

def bookFive : AddressBook :=
  ⟨[("Ann", ⟨"Ann", [], none⟩), ("Ben", ⟨"Ben", [], none⟩),
    ("Cat", ⟨"Cat", [], none⟩), ("Dan", ⟨"Dan", [], none⟩),
    ("Eve", ⟨"Eve", [], none⟩)], none⟩

/-- Witness for claim C3 on a concrete five-record book. -/
theorem claim_C3_witness :
    bookFive.data.length = 5 ∧ bookFive.pageCursor = none ∧
    ((pageIter bookFive 0).1 = some ((bookFive.data.map Prod.snd).take 2) ∧
     ((bookFive.data.map Prod.snd).take 2).length = 2 ∧
     (pageIter bookFive 1).1 = some (((bookFive.data.map Prod.snd).drop 2).take 2) ∧
     (((bookFive.data.map Prod.snd).drop 2).take 2).length = 2 ∧
     (pageIter bookFive 2).1 = some ((bookFive.data.map Prod.snd).drop 4) ∧
     ((bookFive.data.map Prod.snd).drop 4).length = 1 ∧
     (pageIter bookFive 3).1 = none ∧
     ((pageIter bookFive 3).2).pageCursor = none ∧
     (pageIter bookFive 4).1 = some ((bookFive.data.map Prod.snd).take 2)) :=
  ⟨rfl, rfl, claim_C3_thm bookFive rfl rfl⟩

/- ----------------------- claim C4 ----------------------- -/

lemma mkDate_ok {y m d : Nat} (h : (PyDate.mk y m d).valid) :
    mkDate y m d = .ok ⟨y, m, d⟩ := by
  have h' : 1 ≤ y ∧ y ≤ 9999 ∧ 1 ≤ m ∧ m ≤ 12 ∧ 1 ≤ d ∧ d ≤ daysInMonth y m := h
  obtain ⟨h1, h2, h3, h4, h5, h6⟩ := h'
  unfold mkDate
  rw [if_neg (by omega), if_neg (by omega), if_neg (by omega)]

lemma leap_iff (y : Nat) :
    isLeap y = true ↔ (y % 4 = 0 ∧ (y % 100 ≠ 0 ∨ y % 400 = 0)) := by
  unfold isLeap
  simp [Bool.and_eq_true, beq_iff_eq, Bool.or_eq_true, bne_iff_ne]

set_option maxHeartbeats 1000000 in
lemma daysBeforeYear_succ (y : Nat) (h : 1 ≤ y) :
    daysBeforeYear (y + 1) = daysBeforeYear y + daysInYear y := by
  unfold daysBeforeYear daysInYear
  by_cases hl : isLeap y = true
  · rw [if_pos hl]
    rw [leap_iff] at hl
    omega
  · rw [if_neg hl]
    rw [leap_iff] at hl
    omega

set_option maxHeartbeats 1000000 in
lemma daysBeforeMonth_add_le (y m d : Nat) (h1 : 1 ≤ m) (h2 : m ≤ 12)
    (h3 : d ≤ daysInMonth y m) : daysBeforeMonth y m + d ≤ daysInYear y := by
  have e1 : daysBeforeMonth y 1 = 0 := rfl
  have e2 : daysBeforeMonth y 2 = 0 + 31 := rfl
  have e3 : daysBeforeMonth y 3 = 0 + 31 + daysInMonth y 2 := rfl
  have e4 : daysBeforeMonth y 4 = 0 + 31 + daysInMonth y 2 + 31 := rfl
  have e5 : daysBeforeMonth y 5 = 0 + 31 + daysInMonth y 2 + 31 + 30 := rfl
  have e6 : daysBeforeMonth y 6 = 0 + 31 + daysInMonth y 2 + 31 + 30 + 31 := rfl
  have e7 : daysBeforeMonth y 7 =
      0 + 31 + daysInMonth y 2 + 31 + 30 + 31 + 30 := rfl
  have e8 : daysBeforeMonth y 8 =
      0 + 31 + daysInMonth y 2 + 31 + 30 + 31 + 30 + 31 := rfl
  have e9 : daysBeforeMonth y 9 =
      0 + 31 + daysInMonth y 2 + 31 + 30 + 31 + 30 + 31 + 31 := rfl
  have e10 : daysBeforeMonth y 10 =
      0 + 31 + daysInMonth y 2 + 31 + 30 + 31 + 30 + 31 + 31 + 30 := rfl
  have e11 : daysBeforeMonth y 11 =
      0 + 31 + daysInMonth y 2 + 31 + 30 + 31 + 30 + 31 + 31 + 30 + 31 := rfl
  have e12 : daysBeforeMonth y 12 =
      0 + 31 + daysInMonth y 2 + 31 + 30 + 31 + 30 + 31 + 31 + 30 + 31 + 30 := rfl
  have f1 : daysInMonth y 1 = 31 := rfl
  have f3 : daysInMonth y 3 = 31 := rfl
  have f4 : daysInMonth y 4 = 30 := rfl
  have f5 : daysInMonth y 5 = 31 := rfl
  have f6 : daysInMonth y 6 = 30 := rfl
  have f7 : daysInMonth y 7 = 31 := rfl
  have f8 : daysInMonth y 8 = 31 := rfl
  have f9 : daysInMonth y 9 = 30 := rfl
  have f10 : daysInMonth y 10 = 31 := rfl
  have f11 : daysInMonth y 11 = 30 := rfl
  have f12 : daysInMonth y 12 = 31 := rfl
  cases hl : isLeap y
  case false =>
    have h2d : daysInMonth y 2 = 28 := by simp [daysInMonth, hl]
    have hY : daysInYear y = 365 := by simp [daysInYear, hl]
    rw [hY]
    interval_cases m <;> omega
  case true =>
    have h2d : daysInMonth y 2 = 29 := by simp [daysInMonth, hl]
    have hY : daysInYear y = 366 := by simp [daysInYear, hl]
    rw [hY]
    interval_cases m <;> omega

set_option maxHeartbeats 1000000 in
lemma toOrdinal_lt_next (t : PyDate) (m d : Nat) (ht : t.valid)
    (hn : (PyDate.mk (t.year + 1) m d).valid) :
    toOrdinal t < toOrdinal ⟨t.year + 1, m, d⟩ := by
  have ht' : 1 ≤ t.year ∧ t.year ≤ 9999 ∧ 1 ≤ t.month ∧ t.month ≤ 12 ∧
      1 ≤ t.day ∧ t.day ≤ daysInMonth t.year t.month := ht
  have hn' : 1 ≤ t.year + 1 ∧ t.year + 1 ≤ 9999 ∧ 1 ≤ m ∧ m ≤ 12 ∧
      1 ≤ d ∧ d ≤ daysInMonth (t.year + 1) m := hn
  obtain ⟨a1, a2, a3, a4, a5, a6⟩ := ht'
  obtain ⟨b1, b2, b3, b4, b5, b6⟩ := hn'
  show daysBeforeYear t.year + daysBeforeMonth t.year t.month + t.day <
    daysBeforeYear (t.year + 1) + daysBeforeMonth (t.year + 1) m + d
  have hy := daysBeforeYear_succ t.year a1
  have hb := daysBeforeMonth_add_le t.year t.month t.day a3 a4 a6
  omega

lemma dateLt_irrefl (a : PyDate) : ¬ dateLt a a := by
  unfold dateLt; omega

/-- Claim C4, counterexample: the birthday 29 Feb 2020 on 1 March 2024 —
this year's occurrence (29 Feb 2024) exists and today is strictly after it,
so by the claim the call should return the whole-day count to next year's
occurrence; the code instead raises a ValueError, because
`replace(year=2025)` constructs 29 Feb 2025, which does not exist. -/
theorem claim_C4_counterexample :
    PyDate.valid ⟨2024, 3, 1⟩ ∧ PyDate.valid ⟨2024, 2, 29⟩ ∧
    ¬ dateLt ⟨2024, 3, 1⟩ ⟨2024, 2, 29⟩ ∧
    (⟨2024, 3, 1⟩ : PyDate) ≠ ⟨2024, 2, 29⟩ ∧
    Record.count_days_to_birthday ⟨2024, 3, 1⟩ ⟨2020, 2, 29⟩ =
      .error (.valueError "day is out of range for month") :=
  ⟨by decide, by decide, by decide, by decide, rfl⟩

/-- Claim C4 (amended): whenever this year's occurrence of the birthday's
month/day is a constructible date, the code returns the whole-day count when
today is strictly before it and the fixed "today" message when today equals
it; when today is past it, the strictly positive whole-day count to next
year's occurrence is returned PROVIDED that occurrence is itself a
constructible date (for a 29 February birthday followed by a non-leap year
the call raises a ValueError instead). -/
theorem claim_C4_thm (today bday : PyDate) (ht : today.valid)
    (hthis : (PyDate.mk today.year bday.month bday.day).valid) :
    (dateLt today ⟨today.year, bday.month, bday.day⟩ →
      Record.count_days_to_birthday today bday =
        .ok (daysMsg (diffDays ⟨today.year, bday.month, bday.day⟩ today))) ∧
    (today = ⟨today.year, bday.month, bday.day⟩ →
      Record.count_days_to_birthday today bday =
        .ok "Today is this person\x27s birthday!") ∧
    (¬ dateLt today ⟨today.year, bday.month, bday.day⟩ →
      today ≠ ⟨today.year, bday.month, bday.day⟩ →
      (PyDate.mk (today.year + 1) bday.month bday.day).valid →
      Record.count_days_to_birthday today bday =
        .ok (daysMsg (diffDays ⟨today.year + 1, bday.month, bday.day⟩ today)) ∧
      0 < diffDays ⟨today.year + 1, bday.month, bday.day⟩ today) := by
  have hrep : bday.replaceYear today.year = .ok ⟨today.year, bday.month, bday.day⟩ := by
    unfold PyDate.replaceYear
    exact mkDate_ok hthis
  refine ⟨?_, ?_, ?_⟩
  · intro hlt
    unfold Record.count_days_to_birthday
    rw [hrep]
    dsimp only
    rw [if_pos hlt]
  · intro heq
    unfold Record.count_days_to_birthday
    rw [hrep]
    dsimp only
    rw [if_neg (show ¬ dateLt today ⟨today.year, bday.month, bday.day⟩ by
      rw [← heq]; exact dateLt_irrefl today), if_pos heq]
  · intro hlt hne hnext
    constructor
    · unfold Record.count_days_to_birthday
      rw [hrep]
      dsimp only
      rw [if_neg hlt, if_neg hne]
      have hrep2 : (⟨today.year, bday.month, bday.day⟩ : PyDate).replaceYear
          (today.year + 1) = .ok ⟨today.year + 1, bday.month, bday.day⟩ := by
        unfold PyDate.replaceYear
        exact mkDate_ok hnext
      rw [hrep2]
    · have hlt2 := toOrdinal_lt_next today bday.month bday.day ht hnext
      unfold diffDays
      omega

/-- Witness for claim C4's amended theorem: birthday 5 March 2000 seen on
1 May 2024 — today is past this year's occurrence, and the countdown to
5 March 2025 is returned and is strictly positive. -/
theorem claim_C4_witness :
    PyDate.valid ⟨2024, 5, 1⟩ ∧ PyDate.valid ⟨2024, 3, 5⟩ ∧
    ¬ dateLt ⟨2024, 5, 1⟩ ⟨2024, 3, 5⟩ ∧
    (⟨2024, 5, 1⟩ : PyDate) ≠ ⟨2024, 3, 5⟩ ∧ PyDate.valid ⟨2025, 3, 5⟩ ∧
    (Record.count_days_to_birthday ⟨2024, 5, 1⟩ ⟨2000, 3, 5⟩ =
      .ok (daysMsg (diffDays ⟨2025, 3, 5⟩ ⟨2024, 5, 1⟩)) ∧
     0 < diffDays ⟨2025, 3, 5⟩ ⟨2024, 5, 1⟩) :=
  ⟨by decide, by decide, by decide, by decide, by decide,
    (claim_C4_thm ⟨2024, 5, 1⟩ ⟨2000, 3, 5⟩ (by decide) (by decide)).2.2
      (by decide) (by decide) (by decide)⟩

/- ----------------------- claim C8 ----------------------- -/

/-- An exception class the `input_error` decorator catches. -/
def PyErr.catchable : PyErr → Bool
  | .otherError _ => false
  | _ => true

lemma catchable_mkDate (y m d : Nat) :
    ∀ e, mkDate y m d = .error e → e.catchable = true := by
  intro e h
  unfold mkDate at h
  split at h
  · simp only [Except.error.injEq] at h; subst h; rfl
  · split at h
    · simp only [Except.error.injEq] at h; subst h; rfl
    · split at h
      · simp only [Except.error.injEq] at h; subst h; rfl
      · simp at h

lemma catchable_strptime (s : String) :
    ∀ e, strptime_dmY s = .error e → e.catchable = true := by
  intro e h
  unfold strptime_dmY at h
  rcases h1 : dayThenDot s.data with _ | ⟨d, cs1⟩
  · rw [h1] at h; simp only [Except.error.injEq] at h; subst h; rfl
  · rw [h1] at h
    dsimp only at h
    rcases h2 : monthThenDot cs1 with _ | ⟨m, cs2⟩
    · rw [h2] at h; simp only [Except.error.injEq] at h; subst h; rfl
    · rw [h2] at h
      dsimp only at h
      rcases h3 : yearFour cs2 with _ | ⟨y, cs3⟩
      · rw [h3] at h; simp only [Except.error.injEq] at h; subst h; rfl
      · rw [h3] at h
        dsimp only at h
        by_cases h4 : cs3 = []
        · rw [if_pos h4] at h
          exact catchable_mkDate _ _ _ e h
        · rw [if_neg h4] at h
          simp only [Except.error.injEq] at h; subst h; rfl

lemma catchable_phone_mk (s : String) :
    ∀ e, Phone.mk_checked s = .error e → e.catchable = true := by
  intro e h
  unfold Phone.mk_checked at h
  split at h
  · simp at h
  · simp only [Except.error.injEq] at h; subst h; rfl

lemma catchable_record_mk (s : String) :
    ∀ e, Record.mk_checked s = .error e → e.catchable = true := by
  intro e h
  unfold Record.mk_checked at h
  split at h
  · simp only [Except.error.injEq] at h; subst h; rfl
  · split at h
    · simp at h
    · simp only [Except.error.injEq] at h; subst h; rfl

lemma catchable_add_phone (r : Record) (p : String) :
    ∀ e, r.add_phone p = .error e → e.catchable = true := by
  intro e h
  unfold Record.add_phone at h
  rcases h1 : Phone.mk_checked p with e1 | v
  · rw [h1] at h
    simp only [Except.error.injEq] at h
    exact catchable_phone_mk p e (h ▸ h1)
  · rw [h1] at h; simp at h

lemma catchable_delete_phone (r : Record) (p : String) :
    ∀ e, r.delete_phone p = .error e → e.catchable = true := by
  intro e h
  unfold Record.delete_phone at h
  split at h
  · simp at h
  · simp only [Except.error.injEq] at h; subst h; rfl

lemma catchable_add_birthday (today : PyDate) (r : Record) (b : PyDate) :
    ∀ e, r.add_birthday today b = .error e → e.catchable = true := by
  intro e h
  unfold Record.add_birthday at h
  split at h
  · simp only [Except.error.injEq] at h; subst h; rfl
  · simp at h

lemma catchable_count_days (today bday : PyDate) :
    ∀ e, Record.count_days_to_birthday today bday = .error e →
      e.catchable = true := by
  intro e h
  unfold Record.count_days_to_birthday at h
  rcases h1 : bday.replaceYear today.year with e1 | ty
  · rw [h1] at h
    simp only [Except.error.injEq] at h
    exact catchable_mkDate _ _ _ e (h ▸ h1)
  · rw [h1] at h
    dsimp only at h
    by_cases h2 : dateLt today ty
    · rw [if_pos h2] at h; simp at h
    · rw [if_neg h2] at h
      by_cases h3 : today = ty
      · rw [if_pos h3] at h; simp at h
      · rw [if_neg h3] at h
        rcases h4 : ty.replaceYear (ty.year + 1) with e2 | ny
        · rw [h4] at h
          simp only [Except.error.injEq] at h
          exact catchable_mkDate _ _ _ e (h ▸ h4)
        · rw [h4] at h; simp at h

lemma catchable_render (today : PyDate) (r : Record) :
    ∀ e, r.render today = .error e → e.catchable = true := by
  intro e h
  unfold Record.render at h
  rcases hb : r.birthday with _ | bd
  · rw [hb] at h; simp at h
  · rw [hb] at h
    dsimp only at h
    rcases hc : Record.count_days_to_birthday today bd with e1 | msg
    · rw [hc] at h
      simp only [Except.error.injEq] at h
      exact catchable_count_days _ _ e (h ▸ hc)
    · rw [hc] at h; simp at h

lemma catchable_renderStrs (today : PyDate) (l : List Record) :
    ∀ e, renderStrs today l = .error e → e.catchable = true := by
  induction l with
  | nil => intro e h; simp [renderStrs] at h
  | cons r rs ih =>
    intro e h
    unfold renderStrs at h
    rcases hr : r.render today with e1 | s
    · rw [hr] at h
      simp only [Except.error.injEq] at h
      exact catchable_render _ _ e (h ▸ hr)
    · rw [hr] at h
      dsimp only at h
      rcases ht : renderStrs today rs with e1 | ss
      · rw [ht] at h
        simp only [Except.error.injEq] at h
        exact ih e (h ▸ ht)
      · rw [ht] at h; simp at h

lemma catchable_renderAll (today : PyDate) (l : List Record) :
    ∀ e, renderAll today l = .error e → e.catchable = true := by
  induction l with
  | nil => intro e h; simp [renderAll] at h
  | cons r rs ih =>
    intro e h
    unfold renderAll at h
    rcases hr : r.render today with e1 | s
    · rw [hr] at h
      simp only [Except.error.injEq] at h
      exact catchable_render _ _ e (h ▸ hr)
    · rw [hr] at h
      dsimp only at h
      rcases ht : renderAll today rs with e1 | ss
      · rw [ht] at h
        simp only [Except.error.injEq] at h
        exact ih e (h ▸ ht)
      · rw [ht] at h; simp at h

lemma catchable_add_record (b : AddressBook) (r : Record) :
    ∀ e, b.add_record r = .error e → e.catchable = true := by
  intro e h
  unfold AddressBook.add_record at h
  split at h
  · simp only [Except.error.injEq] at h; subst h; rfl
  · simp at h

lemma catchable_delete_record (b : AddressBook) (n : String) :
    ∀ e, b.delete_record n = .error e → e.catchable = true := by
  intro e h
  unfold AddressBook.delete_record at h
  split at h
  · simp at h
  · simp only [Except.error.injEq] at h; subst h; rfl

lemma catchable_show_record (today : PyDate) (b : AddressBook) (n : String) :
    ∀ e, (b.show_record today n).1 = .error e → e.catchable = true := by
  intro e h
  unfold AddressBook.show_record at h
  by_cases h1 : n = "all"
  · rw [if_pos h1] at h
    by_cases h2 : b.data.isEmpty = true
    · rw [if_pos h2] at h; simp at h
    · rw [if_neg h2] at h
      rcases h3 : renderAll today (b.data.map Prod.snd) with e1 | s
      · rw [h3] at h
        simp only [Except.error.injEq] at h
        exact catchable_renderAll _ _ e (h ▸ h3)
      · rw [h3] at h; simp at h
  · rw [if_neg h1] at h
    by_cases h2 : n = "page"
    · rw [if_pos h2] at h
      rcases h3 : b.page_step with ⟨o, b1⟩
      rw [h3] at h
      rcases o with _ | page
      · simp at h
      · dsimp only at h
        by_cases h4 : page.isEmpty = true
        · rw [if_pos h4] at h; simp at h
        · rw [if_neg h4] at h
          rcases h5 : renderStrs today page with e1 | ss
          · rw [h5] at h
            simp only [Except.error.injEq] at h
            exact catchable_renderStrs _ _ e (h ▸ h5)
          · rw [h5] at h; simp at h
    · rw [if_neg h2] at h
      rcases h3 : b.lookup n with _ | r
      · rw [h3] at h; simp at h
      · rw [h3] at h
        dsimp only at h
        rcases h4 : r.render today with e1 | s
        · rw [h4] at h
          simp only [Except.error.injEq] at h
          exact catchable_render _ _ e (h ▸ h4)
        · rw [h4] at h; simp at h

lemma catchable_hello (b : AddressBook) (args : List String) :
    ∀ e, (AssistantBot.hello b args).1 = .error e → e.catchable = true := by
  intro e h
  rcases args with _ | ⟨a, t⟩
  · simp [AssistantBot.hello] at h
  · simp only [AssistantBot.hello] at h
    simp only [Except.error.injEq] at h
    subst h; rfl

lemma catchable_help (b : AddressBook) (args : List String) :
    ∀ e, (AssistantBot.help b args).1 = .error e → e.catchable = true := by
  intro e h
  rcases args with _ | ⟨a, t⟩
  · simp [AssistantBot.help] at h
  · simp only [AssistantBot.help] at h
    simp only [Except.error.injEq] at h
    subst h; rfl

lemma catchable_addSecondToken (today : PyDate) (book : AddressBook)
    (name : String) (r : Record) (tok : String) :
    ∀ e, (addSecondToken today book name r tok).1 = .error e →
      e.catchable = true := by
  intro e h
  unfold addSecondToken at h
  by_cases h1 : Phone.is_valid tok = true
  · rw [if_pos h1] at h
    rcases h2 : r.add_phone tok with e1 | r1
    · rw [h2] at h
      simp only [Except.error.injEq] at h
      exact catchable_add_phone _ _ e (h ▸ h2)
    · rw [h2] at h; simp at h
  · rw [if_neg h1] at h
    by_cases h3 : birthdayShape tok = true
    · rw [if_pos h3] at h
      rcases h4 : strptime_dmY tok with e1 | bd
      · rw [h4] at h
        simp only [Except.error.injEq] at h
        exact catchable_strptime _ e (h ▸ h4)
      · rw [h4] at h
        dsimp only at h
        rcases h5 : r.add_birthday today bd with e1 | r1
        · rw [h5] at h
          simp only [Except.error.injEq] at h
          exact catchable_add_birthday _ _ _ e (h ▸ h5)
        · rw [h5] at h; simp at h
    · rw [if_neg h3] at h
      simp only [Except.error.injEq] at h
      subst h; rfl

lemma catchable_add (today : PyDate) (b : AddressBook) (args : List String) :
    ∀ e, (AssistantBot.add today b args).1 = .error e → e.catchable = true := by
  intro e h
  rcases args with _ | ⟨a0, args⟩
  · simp [AssistantBot.add] at h
  rcases args with _ | ⟨a1, args⟩
  · simp only [AssistantBot.add] at h
    rcases h1 : Record.mk_checked a0 with e1 | r
    · rw [h1] at h
      simp only [Except.error.injEq] at h
      exact catchable_record_mk _ e (h ▸ h1)
    · rw [h1] at h
      dsimp only at h
      rcases h2 : b.add_record r with e1 | b1
      · rw [h2] at h
        simp only [Except.error.injEq] at h
        exact catchable_add_record _ _ e (h ▸ h2)
      · rw [h2] at h; simp at h
  rcases args with _ | ⟨a2, args⟩
  · simp only [AssistantBot.add] at h
    rcases h1 : b.lookup a0 with _ | r
    · rw [h1] at h
      dsimp only at h
      rcases h2 : Record.mk_checked a0 with e1 | r
      · rw [h2] at h
        simp only [Except.error.injEq] at h
        exact catchable_record_mk _ e (h ▸ h2)
      · rw [h2] at h
        dsimp only at h
        rcases h3 : b.add_record r with e1 | b1
        · rw [h3] at h
          simp only [Except.error.injEq] at h
          exact catchable_add_record _ _ e (h ▸ h3)
        · rw [h3] at h
          dsimp only at h
          exact catchable_addSecondToken _ _ _ _ _ e h
    · rw [h1] at h
      dsimp only at h
      exact catchable_addSecondToken _ _ _ _ _ e h
  rcases args with _ | ⟨a3, args⟩
  · simp only [AssistantBot.add] at h
    rcases h1 : Record.mk_checked a0 with e1 | r
    · rw [h1] at h
      simp only [Except.error.injEq] at h
      exact catchable_record_mk _ e (h ▸ h1)
    · rw [h1] at h
      dsimp only at h
      rcases h2 : r.add_phone a1 with e1 | r1
      · rw [h2] at h
        simp only [Except.error.injEq] at h
        exact catchable_add_phone _ _ e (h ▸ h2)
      · rw [h2] at h
        dsimp only at h
        rcases h3 : strptime_dmY a2 with e1 | bd
        · rw [h3] at h
          simp only [Except.error.injEq] at h
          exact catchable_strptime _ e (h ▸ h3)
        · rw [h3] at h
          dsimp only at h
          rcases h4 : r1.add_birthday today bd with e1 | r2
          · rw [h4] at h
            simp only [Except.error.injEq] at h
            exact catchable_add_birthday _ _ _ e (h ▸ h4)
          · rw [h4] at h
            dsimp only at h
            rcases h5 : b.add_record r2 with e1 | b1
            · rw [h5] at h
              simp only [Except.error.injEq] at h
              exact catchable_add_record _ _ e (h ▸ h5)
            · rw [h5] at h; simp at h
  · simp [AssistantBot.add] at h

lemma catchable_change (b : AddressBook) (args : List String) :
    ∀ e, (AssistantBot.change b args).1 = .error e → e.catchable = true := by
  intro e h
  rcases args with _ | ⟨name, args⟩
  · simp only [AssistantBot.change, Except.error.injEq] at h; subst h; rfl
  rcases args with _ | ⟨old_phone, args⟩
  · simp only [AssistantBot.change, Except.error.injEq] at h; subst h; rfl
  rcases args with _ | ⟨new_phone, args⟩
  · simp only [AssistantBot.change, Except.error.injEq] at h; subst h; rfl
  rcases args with _ | ⟨x, args⟩
  · simp only [AssistantBot.change] at h
    rcases h1 : b.lookup name with _ | r
    · rw [h1] at h
      simp only [Except.error.injEq] at h
      subst h; rfl
    · rw [h1] at h
      dsimp only at h
      rcases h2 : r.delete_phone old_phone with e1 | r1
      · rw [h2] at h
        simp only [Except.error.injEq] at h
        exact catchable_delete_phone _ _ e (h ▸ h2)
      · rw [h2] at h
        dsimp only at h
        rcases h3 : r1.add_phone new_phone with e1 | r2
        · rw [h3] at h
          simp only [Except.error.injEq] at h
          exact catchable_add_phone _ _ e (h ▸ h3)
        · rw [h3] at h; simp at h
  · simp only [AssistantBot.change, Except.error.injEq] at h; subst h; rfl

lemma catchable_show (today : PyDate) (b : AddressBook) (args : List String) :
    ∀ e, (AssistantBot.show today b args).1 = .error e → e.catchable = true := by
  intro e h
  rcases args with _ | ⟨name, args⟩
  · simp only [AssistantBot.show, Except.error.injEq] at h; subst h; rfl
  rcases args with _ | ⟨x, args⟩
  · simp only [AssistantBot.show] at h
    rcases h1 : b.show_record today name with ⟨res, b1⟩
    rw [h1] at h
    rcases res with e1 | s
    · simp only [Except.error.injEq] at h
      exact catchable_show_record today b name e (by rw [h1]; simp [h])
    · simp at h
  · simp only [AssistantBot.show, Except.error.injEq] at h; subst h; rfl

lemma catchable_delete (b : AddressBook) (args : List String) :
    ∀ e, (AssistantBot.delete b args).1 = .error e → e.catchable = true := by
  intro e h
  rcases args with _ | ⟨name, args⟩
  · simp only [AssistantBot.delete, Except.error.injEq] at h; subst h; rfl
  rcases args with _ | ⟨phone, args⟩
  · simp only [AssistantBot.delete] at h
    rcases h1 : b.delete_record name with e1 | b1
    · rw [h1] at h
      simp only [Except.error.injEq] at h
      exact catchable_delete_record _ _ e (h ▸ h1)
    · rw [h1] at h; simp at h
  rcases args with _ | ⟨x, args⟩
  · simp only [AssistantBot.delete] at h
    by_cases hp : (phone == "") = true
    · rw [if_pos hp] at h
      rcases h1 : b.delete_record name with e1 | b1
      · rw [h1] at h
        simp only [Except.error.injEq] at h
        exact catchable_delete_record _ _ e (h ▸ h1)
      · rw [h1] at h; simp at h
    · rw [if_neg hp] at h
      rcases h1 : b.lookup name with _ | r
      · rw [h1] at h
        simp only [Except.error.injEq] at h
        subst h; rfl
      · rw [h1] at h
        dsimp only at h
        rcases h2 : r.delete_phone phone with e1 | r1
        · rw [h2] at h
          simp only [Except.error.injEq] at h
          exact catchable_delete_phone _ _ e (h ▸ h2)
        · rw [h2] at h; simp at h
  · simp only [AssistantBot.delete, Except.error.injEq] at h; subst h; rfl

lemma catchable_handle_raw (today : PyDate) (b : AddressBook)
    (command : String) (args : List String) :
    ∀ e, (AssistantBot.handle_raw today b command args).1 = .error e →
      e.catchable = true := by
  intro e h
  unfold AssistantBot.handle_raw at h
  by_cases h1 : command = "hello"
  · rw [if_pos h1] at h; exact catchable_hello _ _ e h
  · rw [if_neg h1] at h
    by_cases h2 : command = "add"
    · rw [if_pos h2] at h; exact catchable_add _ _ _ e h
    · rw [if_neg h2] at h
      by_cases h3 : command = "delete"
      · rw [if_pos h3] at h; exact catchable_delete _ _ e h
      · rw [if_neg h3] at h
        by_cases h4 : command = "change"
        · rw [if_pos h4] at h; exact catchable_change _ _ e h
        · rw [if_neg h4] at h
          by_cases h5 : command = "show"
          · rw [if_pos h5] at h; exact catchable_show _ _ _ e h
          · rw [if_neg h5] at h
            by_cases h6 : command = "help"
            · rw [if_pos h6] at h; exact catchable_help _ _ e h
            · rw [if_neg h6] at h
              simp only [Except.error.injEq] at h
              subst h; rfl

/-- Claim C8: for every command token and argument list, the dispatcher
`handle` never lets an exception escape — it always returns an ok result,
and whenever the undecorated dispatch raised an error the returned value is
that error's rendered descriptive message. -/
theorem claim_C8_thm (today : PyDate) (b : AddressBook) (command : String)
    (args : List String) :
    (AssistantBot.handle today b command args).1 =
      Except.ok (match (AssistantBot.handle_raw today b command args).1 with
        | .ok o => o
        | .error e => some (PyErr.render e)) := by
  unfold AssistantBot.handle
  rcases hr : (AssistantBot.handle_raw today b command args).1 with e | o
  · have hc := catchable_handle_raw today b command args e hr
    cases e
    case typeError m => simp [input_error, hr]
    case keyError m => simp [input_error, hr]
    case valueError m => simp [input_error, hr]
    case otherError m => simp [PyErr.catchable] at hc
  · simp [input_error, hr]
